import Mathlib

/-!
Verification of the PashuSehat backend core: a shallow embedding of the
telemetry-processing Lambda (src/lambda/index.js) and of the realtime
SocketService (socket service sources), with theorems settling the frozen
claims about windowing, threshold classification, cooldown gating, alert
persistence and the subscription registry / poll scheduler.

Numbers carried by readings are modelled as rationals; epoch-millisecond
timestamps as integers.  A JavaScript value that may be null or undefined
is modelled as an Option.  External stores (DynamoDB tables) are modelled
at the query/write contract the code uses: a table is a list of records,
a query applies its key condition, limit and filter in the order the
engine documents (a Limit truncates the page read in index sort order
before the FilterExpression runs), a put is an append, and a fallible
call is flagged by an explicit failure bit.
-/

namespace PashuSehat

/-! ## Data model of the Lambda (src/lambda/index.js) -/

/-- Severity levels produced by calculateSeverity. -/
inductive Severity
| low
| medium
| high
deriving DecidableEq, Repr

/-- The four alert types of the pipeline. -/
inductive AlertType
| temperature
| pulseRate
| motion
| battery
deriving DecidableEq, Repr

/-- One telemetry reading as pushed into the in-memory window
(src/lambda/index.js lines 72-78).  Every metric field is optional:
absence models a JS undefined field. -/
structure Reading where
  temperature : Option ℚ := none
  pulseRate : Option ℚ := none
  motionData : Option ℚ := none
  batteryLevel : Option ℚ := none
  timestamp : ℤ := 0
deriving DecidableEq, Repr

/-- A threshold record of the THRESHOLDS table (lines 19-24); min or max
may be absent (batteryLevel has only min). -/
structure Threshold where
  min : Option ℚ := none
  max : Option ℚ := none
deriving DecidableEq, Repr

def THRESHOLDS_temperature : Threshold := { min := some 38, max := some (39.5 : ℚ) }

def THRESHOLDS_pulseRate : Threshold := { min := some 60, max := some 80 }

def THRESHOLDS_motionData : Threshold := { min := some 0, max := some 3 }

def THRESHOLDS_batteryLevel : Threshold := { min := some 20 }

/-- WINDOW_SIZE = 12 (line 32). -/
def WINDOW_SIZE : ℕ := 12

/-- COOLDOWN_PERIODS in milliseconds (lines 35-40). -/
def COOLDOWN_PERIODS : AlertType → ℤ
| AlertType.temperature => 15 * 60 * 1000
| AlertType.pulseRate => 15 * 60 * 1000
| AlertType.motion => 10 * 60 * 1000
| AlertType.battery => 60 * 60 * 1000

/-- updateTelemetryWindow (lines 148-159): push the reading, then shift
once if the buffer exceeds WINDOW_SIZE. -/
def updateTelemetryWindow (window : List Reading) (reading : Reading) : List Reading :=
  let w := window ++ [reading]
  if WINDOW_SIZE < w.length then w.drop 1 else w

/-- The window contents after ingesting a sequence of readings for one
tag, starting from the empty buffer. -/
def windowAfter (readings : List Reading) : List Reading :=
  readings.foldl updateTelemetryWindow []

/-- calculateAverage (lines 244-252): filter out readings whose field is
undefined; if none remain return null (modelled as none), else the mean. -/
def calculateAverage (readings : List Reading) (field : Reading → Option ℚ) : Option ℚ :=
  let validReadings := readings.filter (fun r => (field r).isSome)
  if validReadings.length = 0 then none
  else some ((validReadings.foldl (fun acc r => acc + (field r).getD 0) 0) / validReadings.length)

/-- JS relational comparison `x < b` where x is a number or null.
ToNumber(null) = 0, so a null left operand compares as 0.  This is the
semantics of the unguarded threshold checks in processWindowedData
(lines 218, 223, 228). -/
def jsLt (v : Option ℚ) (b : ℚ) : Bool := decide (v.getD 0 < b)

/-- JS relational comparison `x > b` with a possibly-null left operand. -/
def jsGt (v : Option ℚ) (b : ℚ) : Bool := decide (b < v.getD 0)

/-- The value passed to createAndSendAlert for one metric: the alert type
and the (possibly null) aggregated value. -/
structure Candidate where
  type : AlertType
  value : Option ℚ
deriving DecidableEq, Repr

/-- lastBattery (line 213): `readings[readings.length - 1].batteryLevel`,
the batteryLevel field of the final reading of the window. -/
def lastBattery (readings : List Reading) : Option ℚ :=
  (readings.getLast?).bind Reading.batteryLevel

/-- The alert candidates emitted by one evaluation pass of
processWindowedData over a full window (lines 207-235), in source order:
temperature, pulseRate, motion, battery.  The first three comparisons are
the raw JS comparisons on the possibly-null averages; the battery check
is explicitly guarded by `lastBattery !== undefined`. -/
def windowCandidates (readings : List Reading) : List Candidate :=
  let avgTemp := calculateAverage readings Reading.temperature
  let avgPulse := calculateAverage readings Reading.pulseRate
  let avgMotion := calculateAverage readings Reading.motionData
  let lastBat := lastBattery readings
  (if jsLt avgTemp 38 || jsGt avgTemp (39.5 : ℚ) then [Candidate.mk AlertType.temperature avgTemp] else [])
  ++ (if jsLt avgPulse 60 || jsGt avgPulse 80 then [Candidate.mk AlertType.pulseRate avgPulse] else [])
  ++ (if jsGt avgMotion 3 then [Candidate.mk AlertType.motion avgMotion] else [])
  ++ (match lastBat with
      | some b => if b < 20 then [Candidate.mk AlertType.battery (some b)] else []
      | none => [])

/-- A persisted alert record (lines 294-305). -/
structure Alert where
  alertId : String
  userId : String := ""
  cattleId : String
  tagId : String := ""
  timestamp : ℤ
  type : AlertType
  severity : Severity := Severity.low
  value : Option ℚ := none
  threshold : Threshold := {}
  status : String := "new"
deriving DecidableEq, Repr

/-- A cattle record as read from the cattle table: id, owner, tag. -/
structure Cattle where
  cattleId : String
  userId : String
  tagId : String
deriving DecidableEq, Repr

/-- `value < threshold.min` guarded by `threshold.min !== undefined`. -/
def belowMin (value : ℚ) (t : Threshold) : Bool :=
  match t.min with
  | some m => decide (value < m)
  | none => false

/-- `value > threshold.max` guarded by `threshold.max !== undefined`. -/
def aboveMax (value : ℚ) (t : Threshold) : Bool :=
  match t.max with
  | some m => decide (m < value)
  | none => false

/-- The repeated deviation-to-severity ladder of calculateSeverity:
deviation above the high cutoff gives high, above the medium cutoff gives
medium, else low. -/
def sevSteps (deviation highCut medCut : ℚ) : Severity :=
  if highCut < deviation then Severity.high
  else if medCut < deviation then Severity.medium
  else Severity.low

/-- calculateSeverity (lines 333-383).  Temperature and pulseRate grade
the deviation from the violated bound (cutoffs 1.5/0.5 and 15/5); battery
grades the absolute value; motion grades the ratio to max; the switch
fall-through returns medium. -/
def calculateSeverity (alertType : AlertType) (value : ℚ) (threshold : Threshold) : Severity :=
  match alertType with
  | AlertType.temperature =>
    if belowMin value threshold then sevSteps (threshold.min.getD 0 - value) (1.5 : ℚ) (0.5 : ℚ)
    else if aboveMax value threshold then sevSteps (value - threshold.max.getD 0) (1.5 : ℚ) (0.5 : ℚ)
    else Severity.medium
  | AlertType.pulseRate =>
    if belowMin value threshold then sevSteps (threshold.min.getD 0 - value) 15 5
    else if aboveMax value threshold then sevSteps (value - threshold.max.getD 0) 15 5
    else Severity.medium
  | AlertType.battery =>
    if value < 10 then Severity.high
    else if value < 15 then Severity.medium
    else Severity.low
  | AlertType.motion =>
    if threshold.max.getD 0 * 2 < value then Severity.high
    else if threshold.max.getD 0 * (1.5 : ℚ) < value then Severity.medium
    else Severity.low

/-- The first item of the CattleIdIndex page of a subject: the stored
alert with the minimal timestamp.  The alerts table is queried through
CattleIdIndex whose sort key is timestamp (alert.service.ts keys that
index with `#ts BETWEEN` and reads it `ScanIndexForward: false` for
newest-first), and the canSendAlert query sets no ScanIndexForward, so
its page is read in ascending timestamp order.  A tie on the sort key is
resolved to the earliest stored item. -/
def oldestAlert (alerts : List Alert) : Option Alert :=
  alerts.foldl (fun acc a =>
    match acc with
    | none => some a
    | some b => if a.timestamp < b.timestamp then some a else some b) none

/-- The DynamoDB query issued by canSendAlert (lines 167-184), under the
engine's documented Query semantics: the key condition (cattleId) selects
the index items in sort order (ascending timestamp, see oldestAlert),
`Limit: 1` truncates that read to its first item BEFORE any filtering,
and only then is the FilterExpression (type equality and
`timestamp > cooldownStart`) applied to the returned page.  The query is
not paginated further by the caller. -/
def queryRecentAlerts (alerts : List Alert) (cattleId : String) (alertType : AlertType)
    (cooldownStart : ℤ) : List Alert :=
  let keyMatches := alerts.filter (fun a => decide (a.cattleId = cattleId))
  let page := (oldestAlert keyMatches).toList
  page.filter (fun a => decide (a.type = alertType ∧ cooldownStart < a.timestamp))

/-- canSendAlert (lines 164-193): query the alert history with Limit 1
and the type/recency filter, and allow exactly when the returned page is
empty; on a store error (queryFails) the catch branch allows the alert.
Because the limit truncates before the filter, the page holds at most the
oldest alert of the subject, whatever its type or age. -/
def canSendAlert (alerts : List Alert) (queryFails : Bool) (now : ℤ)
    (cattleId : String) (alertType : AlertType) : Bool :=
  if queryFails then true
  else (queryRecentAlerts alerts cattleId alertType (now - COOLDOWN_PERIODS alertType)).length == 0

/-- The alert record built by createAndSendAlert (lines 290-305): a fresh
uuid alertId, the current time, and the severity of the (possibly null,
hence ToNumber-coerced) value. -/
def mkAlert (newId : String) (cattle : Cattle) (tagId : String) (now : ℤ)
    (alertType : AlertType) (value : Option ℚ) (threshold : Threshold) : Alert :=
  { alertId := newId
    userId := cattle.userId
    cattleId := cattle.cattleId
    tagId := tagId
    timestamp := now
    type := alertType
    severity := calculateSeverity alertType (value.getD 0) threshold
    value := value
    threshold := threshold
    status := "new" }

/-- The write step of createAndSendAlert (lines 307-312): a plain
PutCommand on the alerts table, keyed by the fresh alertId, with no
ConditionExpression: an unconditional append to the store. -/
def putAlert (alerts : List Alert) (alert : Alert) : List Alert := alerts ++ [alert]

/-- createAndSendAlert (lines 280-328) against a sequentially consistent
store: check the cooldown gate, and if it allows, build and persist the
alert; otherwise return null and leave the store unchanged. -/
def createAndSendAlert (alerts : List Alert) (queryFails : Bool) (now : ℤ)
    (cattle : Cattle) (tagId : String) (alertType : AlertType) (value : Option ℚ)
    (threshold : Threshold) (newId : String) : Option Alert × List Alert :=
  if canSendAlert alerts queryFails now cattle.cattleId alertType then
    let alert := mkAlert newId cattle tagId now alertType value threshold
    (some alert, putAlert alerts alert)
  else (none, alerts)

/-- Two overlapping invocations of createAndSendAlert for the same
candidate whose cooldown checks both read the store before either write
completes (the race described by the spec): both gates see the same
pre-state, then the writes are applied in order. -/
def raceTwoEvaluations (alerts : List Alert) (now : ℤ) (cattle : Cattle) (tagId : String)
    (alertType : AlertType) (value : Option ℚ) (threshold : Threshold)
    (id1 id2 : String) : List Alert :=
  let can1 := canSendAlert alerts false now cattle.cattleId alertType
  let can2 := canSendAlert alerts false now cattle.cattleId alertType
  let s1 := if can1 then putAlert alerts (mkAlert id1 cattle tagId now alertType value threshold) else alerts
  if can2 then putAlert s1 (mkAlert id2 cattle tagId now alertType value threshold) else s1

/-- Number of persisted alerts of a given cattle and type. -/
def countMatching (alerts : List Alert) (cattleId : String) (alertType : AlertType) : ℕ :=
  (alerts.filter (fun a => decide (a.cattleId = cattleId ∧ a.type = alertType))).length

/-! ## Data model of the SocketService

The service keeps three pieces of state: `activePollers`, a Map from
cattleId to the interval timer (modelled as the set of cattleIds whose
timer is armed), `activeSubscriptions`, a Map from cattleId to the Set of
subscribed socketIds, and `socketToCattle`, a Map from socketId to the Set
of cattleIds it subscribes to.  JS Maps are modelled as functions into
Option, JS Sets as insertion-ordered duplicate-free lists. -/

/-- Map.set: bind the key to the value. -/
def mapSet (m : String → Option (List String)) (k : String) (v : List String) :
    String → Option (List String) :=
  fun q => if q = k then some v else m q

/-- Map.delete: remove the binding of the key. -/
def mapDelete (m : String → Option (List String)) (k : String) :
    String → Option (List String) :=
  fun q => if q = k then none else m q

/-- Set.add on an insertion-ordered list. -/
def setAdd (l : List String) (x : String) : List String :=
  if x ∈ l then l else l ++ [x]

/-- Set.delete on an insertion-ordered list. -/
def setDelete (l : List String) (x : String) : List String :=
  l.filter (fun y => y ≠ x)

/-- The entry-creation step of the subscribe handler: if the Map has no
entry for the key, bind it to the empty set. -/
def ensureEntry (m : String → Option (List String)) (k : String) : String → Option (List String) :=
  if (m k).isSome then m else mapSet m k []

/-- Arm the timer of a subject (activePollers.set). -/
def pollersAdd (m : String → Bool) (k : String) : String → Bool :=
  fun q => if q = k then true else m q

/-- Cancel the timer of a subject (clearInterval + activePollers.delete). -/
def pollersDelete (m : String → Bool) (k : String) : String → Bool :=
  fun q => if q = k then false else m q

/-- The mutable state of the SocketService. -/
structure SocketState where
  activePollers : String → Bool
  activeSubscriptions : String → Option (List String)
  socketToCattle : String → Option (List String)

/-- The state of a freshly initialized SocketService. -/
def initialState : SocketState :=
  { activePollers := fun _ => false
    activeSubscriptions := fun _ => none
    socketToCattle := fun _ => none }

/-- The environment the service reads: the cattle table, and whether the
telemetry and alert queries currently return any items. -/
structure Env where
  dir : List Cattle
  hasTelemetry : Bool
  hasNewAlerts : Bool
deriving Repr

/-- Observable effects of the service: a read of an external table about
a subject, a telemetry-update or alert-notification emit to one socket,
or an error emit to the originating socket. -/
inductive Output
| storeQuery (cattleId : String)
| telemetryPush (socketId : String) (cattleId : String)
| alertPush (socketId : String) (cattleId : String)
| errorMsg (socketId : String) (message : String)
deriving DecidableEq, Repr

/-- Events driving the service: a socket connection, the three registry
requests, and the firing of the interval timer of a subject. -/
inductive Event
| connect (socketId : String)
| subscribe (socketId : String) (cattleId : String) (userId : String)
| unsubscribe (socketId : String) (cattleId : String)
| disconnect (socketId : String)
| tick (cattleId : String)
deriving DecidableEq, Repr

/-- getCattleById of the working SocketService (part_007 lines 111-129):
a get on the cattle table by cattleId, returning the item. -/
def getCattleById (dir : List Cattle) (cattleId : String) : Option Cattle :=
  dir.find? (fun c => c.cattleId == cattleId)

/-- fetchAndSendTelemetryData (part_007 lines 150-199): look up the
cattle, query the recent telemetry, and emit the latest reading to every
socket currently in the subscriber set of the subject. -/
def fetchAndSendTelemetry (env : Env) (s : SocketState) (cattleId : String) : List Output :=
  Output.storeQuery cattleId ::
  match getCattleById env.dir cattleId with
  | none => []
  | some _ =>
    Output.storeQuery cattleId ::
    (if env.hasTelemetry then
      ((s.activeSubscriptions cattleId).getD []).map (fun sid => Output.telemetryPush sid cattleId)
    else [])

/-- fetchAndSendAlerts (part_007 lines 201-234): query the new alerts of
the subject and emit them to every current subscriber. -/
def fetchAndSendAlerts (env : Env) (s : SocketState) (cattleId : String) : List Output :=
  Output.storeQuery cattleId ::
  (if env.hasNewAlerts then
    ((s.activeSubscriptions cattleId).getD []).map (fun sid => Output.alertPush sid cattleId)
  else [])

/-- startPollingData (part_007 lines 131-148): no-op if a poller is
already registered; otherwise fetch-and-send immediately, then register
the interval timer. -/
def startPollingData (env : Env) (s : SocketState) (cattleId : String) :
    SocketState × List Output :=
  if s.activePollers cattleId then (s, [])
  else
    ({ s with activePollers := pollersAdd s.activePollers cattleId },
     fetchAndSendTelemetry env s cattleId)

/-- The subscribe-cattle handler (part_007 lines 56-97).  Validation and
the ownership check reject without mutating.  Then the cattleId entry is
created if absent (this mutation persists even if the socket is
untracked), the mirrored edge is added to both indices, and polling is
started for a first subscriber while a later subscriber gets an immediate
fetch-and-send instead. -/
def subscribeStep (env : Env) (s : SocketState) (socketId cattleId userId : String) :
    SocketState × List Output :=
  if cattleId == "" || userId == "" then
    (s, [Output.errorMsg socketId "Missing cattleId or userId"])
  else
    match getCattleById env.dir cattleId with
    | none => (s, [Output.storeQuery cattleId,
                   Output.errorMsg socketId "Cattle not found or unauthorized"])
    | some cattle =>
      if cattle.userId == userId then
        let subs0 := ensureEntry s.activeSubscriptions cattleId
        match s.socketToCattle socketId with
        | none => ({ s with activeSubscriptions := subs0 }, [Output.storeQuery cattleId])
        | some socketSubs =>
          let subscribers2 := setAdd ((subs0 cattleId).getD []) socketId
          let s2 : SocketState :=
            { s with
              activeSubscriptions := mapSet subs0 cattleId subscribers2
              socketToCattle := mapSet s.socketToCattle socketId (setAdd socketSubs cattleId) }
          if subscribers2.length == 1 then
            let r := startPollingData env s2 cattleId
            (r.1, Output.storeQuery cattleId :: r.2)
          else
            (s2, Output.storeQuery cattleId :: fetchAndSendTelemetry env s2 cattleId)
      else
        (s, [Output.storeQuery cattleId,
             Output.errorMsg socketId "Cattle not found or unauthorized"])

/-- First half of unsubscribeSocket (part_007 lines 236-247): remove the
socket from the subscriber set of the cattle; if that set becomes empty,
stop polling and drop the entry. -/
def unsubSubsSide (s : SocketState) (socketId cattleId : String) : SocketState :=
  match s.activeSubscriptions cattleId with
  | none => s
  | some subscribers =>
    let subscribers2 := setDelete subscribers socketId
    if subscribers2.isEmpty then
      { s with
        activePollers := pollersDelete s.activePollers cattleId
        activeSubscriptions := mapDelete s.activeSubscriptions cattleId }
    else { s with activeSubscriptions := mapSet s.activeSubscriptions cattleId subscribers2 }

/-- Second half of unsubscribeSocket (part_007 lines 249-253): remove the
cattle from the subscription set of the socket. -/
def unsubSockSide (s : SocketState) (socketId cattleId : String) : SocketState :=
  match s.socketToCattle socketId with
  | none => s
  | some socketSubs =>
    { s with socketToCattle := mapSet s.socketToCattle socketId (setDelete socketSubs cattleId) }

/-- unsubscribeSocket (part_007 lines 236-256): both halves in order. -/
def unsubscribeStep (s : SocketState) (socketId cattleId : String) : SocketState :=
  unsubSockSide (unsubSubsSide s socketId cattleId) socketId cattleId

/-- handleSocketDisconnect (part_007 lines 258-272): unsubscribe the
socket from a snapshot of its subscription set, then drop its tracking
entry. -/
def disconnectStep (s : SocketState) (socketId : String) : SocketState :=
  let snapshot := (s.socketToCattle socketId).getD []
  let s1 := snapshot.foldl (fun st c => unsubscribeStep st socketId c) s
  { s1 with socketToCattle := mapDelete s1.socketToCattle socketId }

/-- The connection handler (part_007 lines 49-53): initialize tracking
for the socket. -/
def connectStep (s : SocketState) (socketId : String) : SocketState :=
  { s with socketToCattle := mapSet s.socketToCattle socketId [] }

/-- One firing of the interval timer of a subject (part_007 lines
142-145).  A timer that is not armed cannot fire: an unarmed tick is a
non-event. -/
def tickStep (env : Env) (s : SocketState) (cattleId : String) : SocketState × List Output :=
  if s.activePollers cattleId then
    (s, fetchAndSendTelemetry env s cattleId ++ fetchAndSendAlerts env s cattleId)
  else (s, [])

/-- One step of the service. -/
def step (env : Env) (s : SocketState) : Event → SocketState × List Output
| Event.connect sid => (connectStep s sid, [])
| Event.subscribe sid cid uid => subscribeStep env s sid cid uid
| Event.unsubscribe sid cid => (unsubscribeStep s sid cid, [])
| Event.disconnect sid => (disconnectStep s sid, [])
| Event.tick cid => tickStep env s cid

/-- Run a sequence of events, collecting all outputs in order. -/
def runEvents (env : Env) (s : SocketState) : List Event → SocketState × List Output
| [] => (s, [])
| e :: rest =>
  let r := step env s e
  let rr := runEvents env r.1 rest
  (rr.1, r.2 ++ rr.2)

/-- The subscriber-side edge relation: socket o is in the subscriber set
of cattle c. -/
def edgeSubs (s : SocketState) (o c : String) : Prop :=
  o ∈ (s.activeSubscriptions c).getD []

/-- The socket-side edge relation: cattle c is in the subscription set of
socket o. -/
def edgeSock (s : SocketState) (o c : String) : Prop :=
  c ∈ (s.socketToCattle o).getD []

/-- The mirrored-index invariant: an edge exists in the subject index iff
it exists in the observer index. -/
def Mirror (s : SocketState) : Prop :=
  ∀ o c : String, edgeSubs s o c ↔ edgeSock s o c

/-- The three registry mutations of the claim about the mirrored indices. -/
def registryOp : Event → Bool
| Event.subscribe _ _ _ => true
| Event.unsubscribe _ _ => true
| Event.disconnect _ => true
| _ => false

/-- No subscribe request for the given cattle occurs in the trace. -/
def noSubscribeTo (c : String) (trace : List Event) : Bool :=
  trace.all (fun e =>
    match e with
    | Event.subscribe _ cid _ => !(cid == c)
    | _ => true)

/-! ## Model of the older SocketService copy (src/unnamed/part_006)

That copy differs from part_007 in two ways that matter to the claims:
its getCattleById performs the table read and logs `result.Item` but has
no return statement, so the function evaluates to undefined on success
(and null on a caught error), and its fetchAndSendTelemetryData reads
`startTime` on the line before the `const startTime` declaration, so it
throws a ReferenceError that its own catch swallows. -/

/-- getCattleById of part_006 (lines 176-195): the read happens but the
function body never returns the item, so the call always evaluates to an
absent value. -/
def getCattleById006 (_dir : List Cattle) (_cattleId : String) : Option Cattle := none

/-- fetchAndSendTelemetryData of part_006 (lines 216-270): the cattle
lookup yields undefined (see getCattleById006), so the early return fires
and nothing is queried or pushed beyond the cattle read; even with a
cattle record the `startTime` temporal-dead-zone ReferenceError would end
the function inside its catch before any push. -/
def fetchAndSendTelemetry006 (_env : Env) (_s : SocketState) (cattleId : String) : List Output :=
  [Output.storeQuery cattleId]

/-- The subscribe-cattle handler of part_006 (lines 114-161): same shape
as part_007 but using the part_006 getCattleById, whose result is always
absent, so the not-found-or-unauthorized rejection fires on every
request. -/
def subscribeStep006 (env : Env) (s : SocketState) (socketId cattleId userId : String) :
    SocketState × List Output :=
  if cattleId == "" || userId == "" then
    (s, [Output.errorMsg socketId "Missing cattleId or userId"])
  else
    match getCattleById006 env.dir cattleId with
    | none => (s, [Output.storeQuery cattleId,
                   Output.errorMsg socketId "Cattle not found or unauthorized"])
    | some cattle =>
      if cattle.userId == userId then
        let subs0 := ensureEntry s.activeSubscriptions cattleId
        match s.socketToCattle socketId with
        | none => ({ s with activeSubscriptions := subs0 }, [Output.storeQuery cattleId])
        | some socketSubs =>
          let subscribers2 := setAdd ((subs0 cattleId).getD []) socketId
          let s2 : SocketState :=
            { s with
              activeSubscriptions := mapSet subs0 cattleId subscribers2
              socketToCattle := mapSet s.socketToCattle socketId (setAdd socketSubs cattleId) }
          if subscribers2.length == 1 then
            (if s2.activePollers cattleId then s2
             else { s2 with activePollers := pollersAdd s2.activePollers cattleId },
             Output.storeQuery cattleId :: fetchAndSendTelemetry006 env s2 cattleId)
          else
            (s2, Output.storeQuery cattleId :: fetchAndSendTelemetry006 env s2 cattleId)
      else
        (s, [Output.storeQuery cattleId,
             Output.errorMsg socketId "Cattle not found or unauthorized"])

/-! ## Concrete instances used by closed theorems and witnesses -/

/-- A cattle record used by the concrete scenarios. -/
def demoCattle : Cattle := { cattleId := "c1", userId := "u1", tagId := "t1" }

/-- A demo environment: one cattle, data available. -/
def demoEnv : Env := { dir := [demoCattle], hasTelemetry := true, hasNewAlerts := false }

/-- An alert history for cattle c1 holding an old battery alert
(timestamp 0) and a temperature alert 100 seconds old at the evaluation
time 1000000: the subject's oldest alert is the battery one. -/
def c3StaleStore : List Alert :=
  [{ alertId := "b1", cattleId := "c1", timestamp := 0, type := AlertType.battery },
   { alertId := "t1", cattleId := "c1", timestamp := 900000, type := AlertType.temperature }]

/-- A full window in which no reading carries a temperature value. -/
def noTempReading : Reading :=
  { pulseRate := some 70, motionData := some 1, batteryLevel := some 50 }

def noTempWindow : List Reading := List.replicate 12 noTempReading

/-- A full window whose first eleven readings report batteryLevel 10 and
whose final reading lacks batteryLevel; all other metrics are in range. -/
def staleBatteryReading : Reading :=
  { temperature := some 39, pulseRate := some 70, motionData := some 1, batteryLevel := some 10 }

def staleBatteryWindow : List Reading :=
  List.replicate 11 staleBatteryReading ++
  [{ temperature := some 39, pulseRate := some 70, motionData := some 1, batteryLevel := none }]

/-- A service state with one active subscription of socket o1 to cattle
c1, its poller armed, and a second connected but unsubscribed socket o2. -/
def demoActiveState : SocketState :=
  { activePollers := fun c => c == "c1"
    activeSubscriptions := fun c => if c == "c1" then some ["o1"] else none
    socketToCattle := fun o => if o == "o1" then some ["c1"] else if o == "o2" then some [] else none }

/-! ## Spec-side definitions used only to compare the source against the
wording of the specification -/

/-- Written from the spec words for lastValue: the most recent reading of
the window whose metric field is non-absent supplies the value. -/
def specLastValue (readings : List Reading) (field : Reading → Option ℚ) : Option ℚ :=
  (readings.reverse.find? (fun r => (field r).isSome)).bind field

/-- Written from the spec words for the severity ladder: deviation above
1.5 gives high, above 0.5 gives medium, else low. -/
def specSeverityByDeviation (deviation : ℚ) : Severity :=
  if (1.5 : ℚ) < deviation then Severity.high
  else if (0.5 : ℚ) < deviation then Severity.medium
  else Severity.low

/-- Written from the spec words: the deviation of a breaching temperature
value from the violated bound (min 38 below, max 39.5 above). -/
def specTempDeviation (v : ℚ) : ℚ :=
  if v < 38 then 38 - v else v - (39.5 : ℚ)

/-! ## Theorems -/


theorem windowAfter_append_singleton (rs : List Reading) (r : Reading) :
    windowAfter (rs ++ [r]) = updateTelemetryWindow (windowAfter rs) r := by
  simp [windowAfter, List.foldl_append]

theorem windowAfter_eq_drop (rs : List Reading) :
    windowAfter rs = rs.drop (rs.length - WINDOW_SIZE) := by
  induction rs using List.reverseRecOn with
  | nil => rfl
  | append_singleton rs r ih =>
    rw [windowAfter_append_singleton, ih]
    unfold updateTelemetryWindow WINDOW_SIZE
    unfold WINDOW_SIZE at ih
    by_cases h : rs.length < 12
    · have h0 : rs.length - 12 = 0 := Nat.sub_eq_zero_of_le (le_of_lt h)
      have h1 : (rs ++ [r]).length - 12 = 0 := by
        simp only [List.length_append, List.length_singleton]
        omega
      rw [h0, h1, List.drop_zero, List.drop_zero]
      rw [if_neg]
      simp only [List.length_append, List.length_singleton]
      omega
    · push_neg at h
      have hlen : (rs.drop (rs.length - 12)).length = 12 := by
        rw [List.length_drop]; omega
      rw [if_pos]
      · have h2 : (1 : ℕ) ≤ (rs.drop (rs.length - 12)).length := by omega
        rw [List.drop_append_of_le_length h2, List.drop_drop]
        have h3 : (rs ++ [r]).length - 12 = rs.length - 12 + 1 := by
          simp only [List.length_append, List.length_singleton]
          omega
        rw [h3, List.drop_append_of_le_length (by omega : rs.length - 12 + 1 ≤ rs.length)]
      · simp only [List.length_append, List.length_singleton, hlen]
        omega

theorem mem_setAdd {l : List String} {x y : String} : y ∈ setAdd l x ↔ y ∈ l ∨ y = x := by
  unfold setAdd
  split_ifs with h
  · constructor
    · exact fun hy => Or.inl hy
    · rintro (hy | rfl) <;> [exact hy; exact h]
  · simp

theorem mem_setDelete {l : List String} {x y : String} : y ∈ setDelete l x ↔ y ∈ l ∧ y ≠ x := by
  simp [setDelete]

theorem setDelete_eq_nil {l : List String} {x : String} :
    setDelete l x = [] ↔ ∀ y ∈ l, y = x := by
  simp [setDelete, List.filter_eq_nil_iff]

theorem edgeSubs_unsubSubsSide (s : SocketState) (sid cid o c : String) :
    edgeSubs (unsubSubsSide s sid cid) o c ↔ edgeSubs s o c ∧ ¬(o = sid ∧ c = cid) := by
  unfold edgeSubs
  cases hsub : s.activeSubscriptions cid with
  | none =>
    simp only [unsubSubsSide, hsub]
    by_cases hc : c = cid
    · subst hc
      simp [hsub]
    · tauto
  | some subscribers =>
    simp only [unsubSubsSide, hsub]
    split_ifs with he
    · by_cases hc : c = cid
      · subst hc
        rw [List.isEmpty_iff, setDelete_eq_nil] at he
        simp only [mapDelete, if_pos trivial, eq_self_iff_true, if_true, Option.getD_none,
          List.not_mem_nil, false_iff, hsub, Option.getD_some, and_true, not_and]
        intro hmem ho
        exact absurd (he o hmem) ho
      · simp only [mapDelete, if_neg hc]
        tauto
    · by_cases hc : c = cid
      · subst hc
        simp only [mapSet, eq_self_iff_true, if_true, Option.getD_some, mem_setDelete,
          hsub, and_true]
      · simp only [mapSet, if_neg hc]
        tauto

theorem sock_unsubSubsSide (s : SocketState) (sid cid : String) :
    (unsubSubsSide s sid cid).socketToCattle = s.socketToCattle := by
  unfold unsubSubsSide
  cases s.activeSubscriptions cid
  · rfl
  · dsimp only
    split_ifs <;> rfl

theorem edgeSock_unsubSockSide (s : SocketState) (sid cid o c : String) :
    edgeSock (unsubSockSide s sid cid) o c ↔ edgeSock s o c ∧ ¬(o = sid ∧ c = cid) := by
  unfold edgeSock
  cases hsock : s.socketToCattle sid with
  | none =>
    simp only [unsubSockSide, hsock]
    by_cases ho : o = sid
    · subst ho
      simp [hsock]
    · tauto
  | some socketSubs =>
    simp only [unsubSockSide, hsock]
    by_cases ho : o = sid
    · subst ho
      simp only [mapSet, eq_self_iff_true, if_true, Option.getD_some, mem_setDelete,
        hsock, true_and]
    · simp only [mapSet, if_neg ho]
      tauto

theorem subs_unsubSockSide (s : SocketState) (sid cid : String) :
    (unsubSockSide s sid cid).activeSubscriptions = s.activeSubscriptions := by
  unfold unsubSockSide
  cases s.socketToCattle sid <;> rfl

theorem mirror_unsubscribeStep {s : SocketState} (hm : Mirror s) (sid cid : String) :
    Mirror (unsubscribeStep s sid cid) := by
  intro o c
  unfold unsubscribeStep
  rw [show edgeSubs (unsubSockSide (unsubSubsSide s sid cid) sid cid) o c ↔
        edgeSubs (unsubSubsSide s sid cid) o c from by
      unfold edgeSubs
      rw [subs_unsubSockSide]]
  rw [edgeSock_unsubSockSide, edgeSubs_unsubSubsSide]
  rw [show edgeSock (unsubSubsSide s sid cid) o c ↔ edgeSock s o c from by
      unfold edgeSock
      rw [sock_unsubSubsSide]]
  rw [hm o c]

theorem getD_ensureEntry (m : String → Option (List String)) (k c : String) :
    ((ensureEntry m k) c).getD [] = (m c).getD [] := by
  unfold ensureEntry
  split_ifs with h
  · rfl
  · unfold mapSet
    by_cases hc : c = k
    · subst hc
      cases hs : m c
      · simp
      · rw [hs] at h
        simp at h
    · simp [hc]

theorem mirror_subscribeSuccess {s : SocketState} (hm : Mirror s) (sid cid : String)
    (socketSubs : List String) (hsock : s.socketToCattle sid = some socketSubs) :
    Mirror { s with
      activeSubscriptions := mapSet (ensureEntry s.activeSubscriptions cid) cid
        (setAdd (((ensureEntry s.activeSubscriptions cid) cid).getD []) sid)
      socketToCattle := mapSet s.socketToCattle sid (setAdd socketSubs cid) } := by
  intro o c
  have hoc := hm o c
  unfold edgeSubs edgeSock at hoc ⊢
  dsimp only
  by_cases hc : c = cid <;> by_cases ho : o = sid
  · subst hc
    subst ho
    simp only [mapSet, eq_self_iff_true, if_true, Option.getD_some, mem_setAdd]
    simp
  · subst hc
    simp only [mapSet, eq_self_iff_true, if_true, if_neg ho, Option.getD_some, mem_setAdd,
      getD_ensureEntry]
    constructor
    · rintro (h1 | rfl)
      · exact hoc.mp h1
      · exact absurd rfl ho
    · intro h1
      exact Or.inl (hoc.mpr h1)
  · subst ho
    rw [hsock] at hoc
    simp only [mapSet, if_neg hc, eq_self_iff_true, if_true, Option.getD_some, mem_setAdd,
      getD_ensureEntry, Option.getD_some] at hoc ⊢
    rw [hoc]
    constructor
    · intro h1
      exact Or.inl h1
    · rintro (h1 | rfl)
      · exact h1
      · exact absurd rfl hc
  · simp only [mapSet, if_neg hc, if_neg ho, getD_ensureEntry]
    exact hoc

theorem mirror_entryOnly {s : SocketState} (hm : Mirror s) (cid : String) :
    Mirror { s with activeSubscriptions := ensureEntry s.activeSubscriptions cid } := by
  intro o c
  unfold edgeSubs edgeSock
  dsimp only
  rw [getD_ensureEntry]
  exact hm o c

theorem mirror_startPollingData {env : Env} {s : SocketState} (hm : Mirror s) (cid : String) :
    Mirror (startPollingData env s cid).1 := by
  unfold startPollingData
  split_ifs with h
  · exact hm
  · exact hm

theorem mirror_subscribeStep {env : Env} {s : SocketState} (hm : Mirror s)
    (sid cid uid : String) : Mirror (subscribeStep env s sid cid uid).1 := by
  by_cases h1 : (cid == "" || uid == "") = true
  · simp only [subscribeStep, if_pos h1]
    exact hm
  · simp only [subscribeStep, if_neg h1]
    cases hcat : getCattleById env.dir cid with
    | none =>
      simp only
      exact hm
    | some cattle =>
      simp only
      by_cases h2 : (cattle.userId == uid) = true
      · simp only [if_pos h2]
        cases hsock : s.socketToCattle sid with
        | none =>
          simp only
          exact mirror_entryOnly hm cid
        | some socketSubs =>
          simp only
          by_cases h3 :
              ((setAdd (((ensureEntry s.activeSubscriptions cid) cid).getD []) sid).length == 1) = true
          · simp only [if_pos h3]
            exact mirror_startPollingData (mirror_subscribeSuccess hm sid cid socketSubs hsock) cid
          · simp only [if_neg h3]
            exact mirror_subscribeSuccess hm sid cid socketSubs hsock
      · simp only [if_neg h2]
        exact hm

theorem sock_unsubscribeStep (st : SocketState) (sid c : String) :
    (unsubscribeStep st sid c).socketToCattle sid
      = (st.socketToCattle sid).map (fun l => setDelete l c) := by
  unfold unsubscribeStep unsubSockSide
  rw [sock_unsubSubsSide]
  cases hs : st.socketToCattle sid
  · rw [sock_unsubSubsSide]
    simp [hs]
  · simp [mapSet]

theorem sock_foldUnsub (L : List String) (st : SocketState) (sid : String) :
    ((L.foldl (fun acc c => unsubscribeStep acc sid c) st).socketToCattle sid)
      = (st.socketToCattle sid).map (fun l => L.foldl (fun acc c => setDelete acc c) l) := by
  induction L generalizing st with
  | nil => cases hs : st.socketToCattle sid <;> simp [hs]
  | cons c L ih =>
    simp only [List.foldl_cons]
    rw [ih, sock_unsubscribeStep]
    cases st.socketToCattle sid <;> simp

theorem foldl_setDelete_nil : ∀ (L l : List String), (∀ x ∈ l, x ∈ L) →
    L.foldl (fun acc c => setDelete acc c) l = [] := by
  intro L
  induction L with
  | nil =>
    intro l h
    cases l with
    | nil => rfl
    | cons a t => exact absurd (h a (List.mem_cons_self a t)) (List.not_mem_nil a)
  | cons c L ih =>
    intro l h
    simp only [List.foldl_cons]
    apply ih
    intro x hx
    rw [mem_setDelete] at hx
    rcases List.mem_cons.mp (h x hx.1) with h1 | h1
    · exact absurd h1 hx.2
    · exact h1

theorem mirror_foldUnsub {s : SocketState} (hm : Mirror s) (L : List String) (sid : String) :
    Mirror (L.foldl (fun acc c => unsubscribeStep acc sid c) s) := by
  induction L generalizing s with
  | nil => exact hm
  | cons c L ih =>
    simp only [List.foldl_cons]
    exact ih (mirror_unsubscribeStep hm sid c)

theorem mirror_disconnectStep {s : SocketState} (hm : Mirror s) (sid : String) :
    Mirror (disconnectStep s sid) := by
  have hm1 : Mirror (((s.socketToCattle sid).getD []).foldl
      (fun acc c => unsubscribeStep acc sid c) s) := mirror_foldUnsub hm _ sid
  have hempty : (((((s.socketToCattle sid).getD []).foldl
      (fun acc c => unsubscribeStep acc sid c) s).socketToCattle sid).getD []) = ([] : List String) := by
    rw [sock_foldUnsub]
    cases hs : s.socketToCattle sid with
    | none => simp
    | some l =>
      simp [foldl_setDelete_nil l l (fun x hx => hx)]
  intro o c
  unfold disconnectStep edgeSubs edgeSock
  dsimp only
  by_cases ho : o = sid
  · subst ho
    simp only [mapDelete, eq_self_iff_true, if_true, Option.getD_none, List.not_mem_nil,
      iff_false]
    intro hmem
    have h2 := (hm1 o c).mp hmem
    unfold edgeSock at h2
    rw [hempty] at h2
    exact absurd h2 (List.not_mem_nil c)
  · simp only [mapDelete, if_neg ho]
    exact hm1 o c

theorem pollers_unsubSockSide (s : SocketState) (sid cid : String) :
    (unsubSockSide s sid cid).activePollers = s.activePollers := by
  unfold unsubSockSide
  cases s.socketToCattle sid <;> rfl

theorem pollers_unsubSubsSide_false {s : SocketState} {c : String} (sid cid : String)
    (h : s.activePollers c = false) : (unsubSubsSide s sid cid).activePollers c = false := by
  unfold unsubSubsSide
  cases s.activeSubscriptions cid with
  | none => exact h
  | some subscribers =>
    dsimp only
    split_ifs
    · by_cases hc : c = cid <;> simp [pollersDelete, hc, h]
    · exact h

theorem pollers_unsubscribeStep_false {s : SocketState} {c : String} (sid cid : String)
    (h : s.activePollers c = false) : (unsubscribeStep s sid cid).activePollers c = false := by
  unfold unsubscribeStep
  rw [pollers_unsubSockSide]
  exact pollers_unsubSubsSide_false sid cid h

theorem pollers_startPollingData_false {env : Env} {s : SocketState} {c cid : String}
    (hne : c ≠ cid) (h : s.activePollers c = false) :
    (startPollingData env s cid).1.activePollers c = false := by
  unfold startPollingData
  split_ifs
  · exact h
  · simp [pollersAdd, hne, h]

theorem pollers_subscribeStep_false {env : Env} {s : SocketState} {c : String}
    (sid cid uid : String) (hne : c ≠ cid) (h : s.activePollers c = false) :
    (subscribeStep env s sid cid uid).1.activePollers c = false := by
  by_cases h1 : (cid == "" || uid == "") = true
  · simp only [subscribeStep, if_pos h1]
    exact h
  · simp only [subscribeStep, if_neg h1]
    cases hcat : getCattleById env.dir cid with
    | none => exact h
    | some cattle =>
      simp only
      by_cases h2 : (cattle.userId == uid) = true
      · simp only [if_pos h2]
        cases hsock : s.socketToCattle sid with
        | none => exact h
        | some socketSubs =>
          simp only
          by_cases h3 :
              ((setAdd (((ensureEntry s.activeSubscriptions cid) cid).getD []) sid).length == 1) = true
          · simp only [if_pos h3]
            exact pollers_startPollingData_false hne h
          · simp only [if_neg h3]
            exact h
      · simp only [if_neg h2]
        exact h

theorem pollers_disconnectStep_false {s : SocketState} {c : String} (sid : String)
    (h : s.activePollers c = false) : (disconnectStep s sid).activePollers c = false := by
  unfold disconnectStep
  dsimp only
  have hfold : ∀ (L : List String) (st : SocketState), st.activePollers c = false →
      (L.foldl (fun acc cid => unsubscribeStep acc sid cid) st).activePollers c = false := by
    intro L
    induction L with
    | nil => exact fun st hst => hst
    | cons x L ih =>
      intro st hst
      simp only [List.foldl_cons]
      exact ih _ (pollers_unsubscribeStep_false sid x hst)
  exact hfold _ s h

theorem tickStep_state (env : Env) (s : SocketState) (cid : String) :
    (tickStep env s cid).1 = s := by
  unfold tickStep
  split_ifs <;> rfl

theorem mem_fetchTelemetry {env : Env} {s : SocketState} {cid : String} {o : Output}
    (h : o ∈ fetchAndSendTelemetry env s cid) :
    o = Output.storeQuery cid ∨ ∃ x, o = Output.telemetryPush x cid := by
  unfold fetchAndSendTelemetry at h
  rcases List.mem_cons.mp h with rfl | h
  · exact Or.inl rfl
  · cases hcat : getCattleById env.dir cid with
    | none =>
      rw [hcat] at h
      exact absurd h (List.not_mem_nil o)
    | some cattle =>
      rw [hcat] at h
      rcases List.mem_cons.mp h with rfl | h
      · exact Or.inl rfl
      · split_ifs at h
        · rcases List.mem_map.mp h with ⟨x, _, rfl⟩
          exact Or.inr ⟨x, rfl⟩
        · exact absurd h (List.not_mem_nil o)

theorem mem_fetchAlerts {env : Env} {s : SocketState} {cid : String} {o : Output}
    (h : o ∈ fetchAndSendAlerts env s cid) :
    o = Output.storeQuery cid ∨ ∃ x, o = Output.alertPush x cid := by
  unfold fetchAndSendAlerts at h
  rcases List.mem_cons.mp h with rfl | h
  · exact Or.inl rfl
  · split_ifs at h
    · rcases List.mem_map.mp h with ⟨x, _, rfl⟩
      exact Or.inr ⟨x, rfl⟩
    · exact absurd h (List.not_mem_nil o)

theorem mem_startPollingData {env : Env} {s : SocketState} {cid : String} {o : Output}
    (h : o ∈ (startPollingData env s cid).2) :
    o = Output.storeQuery cid ∨ ∃ x, o = Output.telemetryPush x cid := by
  unfold startPollingData at h
  split_ifs at h
  · exact absurd h (List.not_mem_nil o)
  · exact mem_fetchTelemetry h

theorem mem_subscribeOutputs {env : Env} {s : SocketState} {sid cid uid : String} {o : Output}
    (h : o ∈ (subscribeStep env s sid cid uid).2) :
    o = Output.storeQuery cid ∨ (∃ x m, o = Output.errorMsg x m)
      ∨ ∃ x, o = Output.telemetryPush x cid := by
  by_cases h1 : (cid == "" || uid == "") = true
  · simp only [subscribeStep, if_pos h1] at h
    rcases List.mem_singleton.mp h with rfl
    exact Or.inr (Or.inl ⟨sid, _, rfl⟩)
  · simp only [subscribeStep, if_neg h1] at h
    cases hcat : getCattleById env.dir cid with
    | none =>
      rw [hcat] at h
      rcases List.mem_cons.mp h with rfl | h
      · exact Or.inl rfl
      · rcases List.mem_singleton.mp h with rfl
        exact Or.inr (Or.inl ⟨sid, _, rfl⟩)
    | some cattle =>
      rw [hcat] at h
      dsimp only at h
      by_cases h2 : (cattle.userId == uid) = true
      · rw [if_pos h2] at h
        cases hsock : s.socketToCattle sid with
        | none =>
          rw [hsock] at h
          rcases List.mem_singleton.mp h with rfl
          exact Or.inl rfl
        | some socketSubs =>
          rw [hsock] at h
          dsimp only at h
          split_ifs at h
          · rcases List.mem_cons.mp h with rfl | h
            · exact Or.inl rfl
            · rcases mem_startPollingData h with h3 | h3
              · exact Or.inl h3
              · exact Or.inr (Or.inr h3)
          · rcases List.mem_cons.mp h with rfl | h
            · exact Or.inl rfl
            · rcases mem_fetchTelemetry h with h3 | h3
              · exact Or.inl h3
              · exact Or.inr (Or.inr h3)
      · rw [if_neg h2] at h
        rcases List.mem_cons.mp h with rfl | h
        · exact Or.inl rfl
        · rcases List.mem_singleton.mp h with rfl
          exact Or.inr (Or.inl ⟨sid, _, rfl⟩)

theorem storeQuery_step {env : Env} {s : SocketState} {e : Event} {c : String}
    (h : Output.storeQuery c ∈ (step env s e).2) :
    (∃ sid uid, e = Event.subscribe sid c uid)
      ∨ (e = Event.tick c ∧ s.activePollers c = true) := by
  cases e with
  | connect sid => exact absurd h (List.not_mem_nil _)
  | unsubscribe sid cid => exact absurd h (List.not_mem_nil _)
  | disconnect sid => exact absurd h (List.not_mem_nil _)
  | subscribe sid cid uid =>
    simp only [step] at h
    rcases mem_subscribeOutputs h with h1 | ⟨x, m, h1⟩ | ⟨x, h1⟩
    · injection h1 with h2
      subst h2
      exact Or.inl ⟨sid, uid, rfl⟩
    · exact absurd h1 (by simp)
    · exact absurd h1 (by simp)
  | tick cid =>
    simp only [step, tickStep] at h
    split_ifs at h with hp
    · rcases List.mem_append.mp h with h1 | h1
      · rcases mem_fetchTelemetry h1 with h2 | ⟨x, h2⟩
        · injection h2 with h3
          subst h3
          exact Or.inr ⟨rfl, hp⟩
        · exact absurd h2 (by simp)
      · rcases mem_fetchAlerts h1 with h2 | ⟨x, h2⟩
        · injection h2 with h3
          subst h3
          exact Or.inr ⟨rfl, hp⟩
        · exact absurd h2 (by simp)
    · exact absurd h (List.not_mem_nil _)

theorem pollers_step_false {env : Env} {s : SocketState} {e : Event} {c : String}
    (h : s.activePollers c = false) (hns : ∀ sid uid, e ≠ Event.subscribe sid c uid) :
    (step env s e).1.activePollers c = false := by
  cases e with
  | connect sid => exact h
  | subscribe sid cid uid =>
    have hne : c ≠ cid := by
      rintro rfl
      exact hns sid uid rfl
    exact pollers_subscribeStep_false sid cid uid hne h
  | unsubscribe sid cid => exact pollers_unsubscribeStep_false sid cid h
  | disconnect sid => exact pollers_disconnectStep_false sid h
  | tick cid =>
    simp only [step]
    rw [tickStep_state]
    exact h

theorem quiesce {c : String} : ∀ (trace : List Event) (env : Env) (s : SocketState),
    s.activePollers c = false → noSubscribeTo c trace = true →
    (Output.storeQuery c ∉ (runEvents env s trace).2 ∧
     (runEvents env s trace).1.activePollers c = false) := by
  intro trace
  induction trace with
  | nil =>
    intro env s hp _
    exact ⟨List.not_mem_nil _, hp⟩
  | cons e rest ih =>
    intro env s hp hns
    simp only [noSubscribeTo, List.all_cons, Bool.and_eq_true] at hns
    obtain ⟨hns1, hns2⟩ := hns
    have hne : ∀ sid uid, e ≠ Event.subscribe sid c uid := by
      rintro sid uid rfl
      simp at hns1
    have hstep_p := @pollers_step_false env s e c hp hne
    have hrest := ih env (step env s e).1 hstep_p hns2
    simp only [runEvents]
    constructor
    · rw [List.mem_append]
      rintro (h1 | h1)
      · rcases storeQuery_step h1 with ⟨sid, uid, rfl⟩ | ⟨rfl, hp2⟩
        · exact hne sid uid rfl
        · rw [hp] at hp2
          exact Bool.false_ne_true hp2
      · exact hrest.1 h1
    · exact hrest.2

theorem pollers_unsub_last {s : SocketState} {sid c : String} {subs : List String}
    (hsubs : s.activeSubscriptions c = some subs) (hlast : setDelete subs sid = []) :
    (unsubscribeStep s sid c).activePollers c = false := by
  unfold unsubscribeStep
  rw [pollers_unsubSockSide]
  simp only [unsubSubsSide, hsubs]
  rw [if_pos (by rw [hlast]; rfl)]
  simp [pollersDelete]

theorem subs_unsubscribeStep_ne {st : SocketState} {sid cid c : String} (hne : cid ≠ c) :
    (unsubscribeStep st sid cid).activeSubscriptions c = st.activeSubscriptions c := by
  unfold unsubscribeStep
  rw [subs_unsubSockSide]
  unfold unsubSubsSide
  cases st.activeSubscriptions cid with
  | none => rfl
  | some subscribers =>
    dsimp only
    split_ifs
    · simp only [mapDelete]
      rw [if_neg (Ne.symm hne)]
    · simp only [mapSet]
      rw [if_neg (Ne.symm hne)]

theorem pollers_disconnect_last {s : SocketState} {sid c : String} {subs : List String}
    (hsubs : s.activeSubscriptions c = some subs) (hlast : setDelete subs sid = [])
    (hmem : c ∈ (s.socketToCattle sid).getD []) :
    (disconnectStep s sid).activePollers c = false := by
  unfold disconnectStep
  dsimp only
  have hfold : ∀ (L : List String) (st : SocketState),
      ((st.activeSubscriptions c = some subs ∧ c ∈ L) ∨ st.activePollers c = false) →
      ((L.foldl (fun acc x => unsubscribeStep acc sid x) st).activePollers c = false) := by
    intro L
    induction L with
    | nil =>
      intro st h
      rcases h with ⟨_, hc⟩ | hp
      · exact absurd hc (List.not_mem_nil c)
      · exact hp
    | cons x L ih =>
      intro st h
      simp only [List.foldl_cons]
      rcases h with ⟨hsub, hc⟩ | hp
      · by_cases hx : x = c
        · subst hx
          exact ih _ (Or.inr (pollers_unsub_last hsub hlast))
        · refine ih _ (Or.inl ⟨?_, ?_⟩)
          · rw [subs_unsubscribeStep_ne hx]
            exact hsub
          · rcases List.mem_cons.mp hc with h1 | h1
            · exact absurd h1.symm hx
            · exact h1
      · exact ih _ (Or.inr (pollers_unsubscribeStep_false sid x hp))
  exact hfold _ s (Or.inl ⟨hsubs, hmem⟩)

/-- C1: over a full window in which no reading supplies a temperature,
calculateAverage does return the no-value result (none, never zero), but
the evaluation pass still emits a temperature alert candidate, because
the unguarded JS comparison coerces the null average to 0 and 0 < 38
holds.  This evaluates the code at the failing input of the claim. -/
theorem no_value_average_still_emits_candidate :
    calculateAverage noTempWindow Reading.temperature = none ∧
    windowCandidates noTempWindow = [Candidate.mk AlertType.temperature none] := by
  constructor
  · decide
  · norm_num [windowCandidates, calculateAverage, noTempWindow, noTempReading, jsLt, jsGt,
      lastBattery, List.replicate, List.filter, List.foldl]

/-- C2 counterexample: two racing evaluations of the same temperature
candidate for cattle c1 in the same cooldown bucket (both gate checks
read the empty store) persist two alerts, not at most one: the write of
createAndSendAlert is an unconditional put keyed by a fresh alertId. -/
theorem racing_writes_persist_two_alerts :
    ¬ (countMatching (raceTwoEvaluations [] 0 demoCattle "t1" AlertType.temperature
        (some 40) THRESHOLDS_temperature "a1" "a2") "c1" AlertType.temperature ≤ 1) := by
  decide

/-- C2 amended: the Alert Writer performs an unconditional put keyed by a
fresh random alertId (no condition on subject, type or cooldown bucket),
so whenever two racing evaluations of the same candidate both pass the
cooldown gate on the pre-state, exactly two alerts of that subject and
type are persisted; deduplication comes only from the pre-write gate. -/
theorem unconditional_write_double_persist (s0 : List Alert) (now : ℤ) (cattle : Cattle)
    (tagId : String) (ty : AlertType) (v : Option ℚ) (thr : Threshold) (id1 id2 : String)
    (h : canSendAlert s0 false now cattle.cattleId ty = true) :
    countMatching (raceTwoEvaluations s0 now cattle tagId ty v thr id1 id2) cattle.cattleId ty
      = countMatching s0 cattle.cattleId ty + 2 := by
  simp [raceTwoEvaluations, h, putAlert, countMatching, mkAlert, List.filter_append]

/-- Witness for the amended C2 theorem at a concrete store and candidate. -/
theorem unconditional_write_double_persist_witness :
    countMatching (raceTwoEvaluations [] 0 demoCattle "t1" AlertType.temperature
        (some 40) THRESHOLDS_temperature "a1" "a2") demoCattle.cattleId AlertType.temperature
      = countMatching [] demoCattle.cattleId AlertType.temperature + 2 :=
  unconditional_write_double_persist [] 0 demoCattle "t1" AlertType.temperature
    (some 40) THRESHOLDS_temperature "a1" "a2" (by decide)

/-- C3: the cooldown constants are as claimed (15 min for temperature
and pulseRate, 10 min for motion, 60 min for battery), but the gate does
not answer false whenever a recent alert of the subject and type exists:
its query truncates to the single oldest alert of the subject before the
type/recency filter runs.  Evaluated at the failing input: the history
holds a temperature alert 100 seconds old (inside the 15-minute window,
as the third conjunct computes), yet canSendAlert examines only the old
battery alert and returns true, so a second qualifying temperature
breach now would not be suppressed. -/
theorem cooldown_gate_misses_recent_alert :
    (COOLDOWN_PERIODS AlertType.temperature = 15 * 60 * 1000 ∧
     COOLDOWN_PERIODS AlertType.pulseRate = 15 * 60 * 1000 ∧
     COOLDOWN_PERIODS AlertType.motion = 10 * 60 * 1000 ∧
     COOLDOWN_PERIODS AlertType.battery = 60 * 60 * 1000) ∧
    canSendAlert c3StaleStore false 1000000 "c1" AlertType.temperature = true ∧
    (c3StaleStore.filter (fun a => decide (a.cattleId = "c1" ∧ a.type = AlertType.temperature ∧
        1000000 - COOLDOWN_PERIODS AlertType.temperature < a.timestamp))).length = 1 := by
  refine ⟨⟨rfl, rfl, rfl, rfl⟩, ?_, ?_⟩ <;> decide

/-- C4: after any sequence of ingested readings for one tag, the window
holds at most WINDOW_SIZE readings and holds exactly the most recently
ingested readings in arrival order (the suffix of the ingestion
sequence), so the oldest reading is evicted when a thirteenth arrives. -/
theorem window_bounded_fifo (readings : List Reading) :
    (windowAfter readings).length ≤ WINDOW_SIZE ∧
    windowAfter readings = readings.drop (readings.length - WINDOW_SIZE) := by
  refine ⟨?_, windowAfter_eq_drop readings⟩
  rw [windowAfter_eq_drop, List.length_drop]
  omega

/-- C5: for every breaching temperature value, calculateSeverity grades
the deviation from the violated bound with cutoffs 1.5 and 0.5 exactly as
the specification states; in particular an average of 39.8 (max 39.5) is
graded low and an average of 41.2 is graded high. -/
theorem temperature_severity_by_deviation :
    (∀ v : ℚ, v < 38 ∨ (39.5 : ℚ) < v →
      calculateSeverity AlertType.temperature v THRESHOLDS_temperature
        = specSeverityByDeviation (specTempDeviation v)) ∧
    calculateSeverity AlertType.temperature (39.8 : ℚ) THRESHOLDS_temperature = Severity.low ∧
    calculateSeverity AlertType.temperature (41.2 : ℚ) THRESHOLDS_temperature = Severity.high := by
  refine ⟨?_, ?_, ?_⟩
  · intro v hv
    by_cases h1 : v < 38
    · simp [calculateSeverity, THRESHOLDS_temperature, belowMin, specTempDeviation,
        specSeverityByDeviation, sevSteps, h1]
    · have h2 : (39.5 : ℚ) < v := hv.resolve_left h1
      simp [calculateSeverity, THRESHOLDS_temperature, belowMin, aboveMax, specTempDeviation,
        specSeverityByDeviation, sevSteps, h1, h2]
  · norm_num [calculateSeverity, THRESHOLDS_temperature, belowMin, aboveMax, sevSteps]
  · norm_num [calculateSeverity, THRESHOLDS_temperature, belowMin, aboveMax, sevSteps]

/-- Witness for C5 at the breaching value 41.2. -/
theorem temperature_severity_by_deviation_witness :
    calculateSeverity AlertType.temperature (41.2 : ℚ) THRESHOLDS_temperature
      = specSeverityByDeviation (specTempDeviation (41.2 : ℚ)) :=
  temperature_severity_by_deviation.1 (41.2 : ℚ) (Or.inr (by norm_num))

/-- C6 counterexample: in a window whose most recent reading lacks
batteryLevel while an earlier reading holds the breach-worthy value 10,
the spec-side lastValue is 10 but the code uses the final reading only:
the battery value used is absent and no battery candidate is emitted, so
the value used is not the most recent non-absent batteryLevel. -/
theorem battery_skips_last_known_value :
    specLastValue staleBatteryWindow Reading.batteryLevel = some 10 ∧
    lastBattery staleBatteryWindow = none ∧
    lastBattery staleBatteryWindow ≠ specLastValue staleBatteryWindow Reading.batteryLevel ∧
    windowCandidates staleBatteryWindow = [] := by
  refine ⟨by decide, by decide, by decide, ?_⟩
  norm_num [windowCandidates, calculateAverage, staleBatteryWindow, staleBatteryReading,
    jsLt, jsGt, lastBattery, List.replicate, List.filter, List.foldl]

/-- C6 amended: the battery evaluation of a pass is driven exactly by the
batteryLevel of the final reading of the window: a candidate with that
value when it is present and below 20, and no candidate at all (never a
zeroed value) when the final reading lacks batteryLevel. -/
theorem battery_uses_final_reading (readings : List Reading) :
    (windowCandidates readings).filter (fun c => decide (c.type = AlertType.battery)) =
      (match lastBattery readings with
       | none => []
       | some b => if b < 20 then [Candidate.mk AlertType.battery (some b)] else []) := by
  unfold windowCandidates
  cases hb : lastBattery readings <;>
    simp only [hb, List.filter_append] <;>
    split_ifs <;>
    simp

/-- C7: in the part_006 SocketService, a subscribe of an additional
observer o2 to cattle c1 whose poller is already active, with c1 present
in the cattle table and owned by the requesting user, is rejected with
the not-found-or-unauthorized error and receives no snapshot push, and
the service state is untouched, because that getCattleById never returns
the fetched item.  This evaluates the code at the failing input. -/
theorem late_subscriber_gets_error_not_snapshot :
    (subscribeStep006 demoEnv demoActiveState "o2" "c1" "u1").2
        = [Output.storeQuery "c1", Output.errorMsg "o2" "Cattle not found or unauthorized"] ∧
    (subscribeStep006 demoEnv demoActiveState "o2" "c1" "u1").1.activePollers "c1" = true ∧
    (subscribeStep006 demoEnv demoActiveState "o2" "c1" "u1").1.activeSubscriptions "c1"
        = some ["o1"] ∧
    ((subscribeStep006 demoEnv demoActiveState "o2" "c1" "u1").2.all (fun o =>
      match o with
      | Output.telemetryPush _ _ => false
      | _ => true)) = true := by
  refine ⟨?_, ?_, ?_, ?_⟩ <;> decide

/-- C8: once the unsubscribe removing the last subscriber of a subject
returns, the timer of the subject is cancelled, and along any subsequent
trace containing no new subscribe request for that subject no store query
for it occurs and its poller stays idle; the same holds for a disconnect
of a socket that is the sole subscriber of the subject. -/
theorem last_unsubscribe_stops_polling :
    (∀ (env : Env) (s : SocketState) (sid c : String) (subs : List String)
        (trace : List Event),
      s.activeSubscriptions c = some subs →
      setDelete subs sid = [] →
      noSubscribeTo c trace = true →
      ((unsubscribeStep s sid c).activePollers c = false ∧
       Output.storeQuery c ∉ (runEvents env (unsubscribeStep s sid c) trace).2 ∧
       (runEvents env (unsubscribeStep s sid c) trace).1.activePollers c = false)) ∧
    (∀ (env : Env) (s : SocketState) (sid c : String) (subs : List String)
        (trace : List Event),
      Mirror s →
      s.activeSubscriptions c = some subs →
      sid ∈ subs →
      setDelete subs sid = [] →
      noSubscribeTo c trace = true →
      ((disconnectStep s sid).activePollers c = false ∧
       Output.storeQuery c ∉ (runEvents env (disconnectStep s sid) trace).2 ∧
       (runEvents env (disconnectStep s sid) trace).1.activePollers c = false)) := by
  constructor
  · intro env s sid c subs trace hsubs hlast hns
    have h1 : (unsubscribeStep s sid c).activePollers c = false := pollers_unsub_last hsubs hlast
    have h2 := quiesce trace env (unsubscribeStep s sid c) h1 hns
    exact ⟨h1, h2.1, h2.2⟩
  · intro env s sid c subs trace hm hsubs hsid hlast hns
    have hmem : c ∈ (s.socketToCattle sid).getD [] := by
      have := (hm sid c).mp
      unfold edgeSubs edgeSock at this
      rw [hsubs] at this
      exact this hsid
    have h1 : (disconnectStep s sid).activePollers c = false :=
      pollers_disconnect_last hsubs hlast hmem
    have h2 := quiesce trace env (disconnectStep s sid) h1 hns
    exact ⟨h1, h2.1, h2.2⟩

/-- Witness for C8: o1 is the sole subscriber of c1; after its
unsubscribe the poller of c1 is off, and a trace with further ticks of c1
and an unrelated subscribe yields no store query for c1. -/
theorem last_unsubscribe_stops_polling_witness :
    ((unsubscribeStep demoActiveState "o1" "c1").activePollers "c1" = false ∧
     Output.storeQuery "c1" ∉ (runEvents demoEnv (unsubscribeStep demoActiveState "o1" "c1")
        [Event.tick "c1", Event.subscribe "o2" "c2" "u1", Event.tick "c1"]).2 ∧
     (runEvents demoEnv (unsubscribeStep demoActiveState "o1" "c1")
        [Event.tick "c1", Event.subscribe "o2" "c2" "u1", Event.tick "c1"]).1.activePollers "c1"
       = false) :=
  last_unsubscribe_stops_polling.1 demoEnv demoActiveState "o1" "c1" ["o1"]
    [Event.tick "c1", Event.subscribe "o2" "c2" "u1", Event.tick "c1"]
    (by decide) (by decide) (by decide)

/-- C9: each of the three registry mutations (subscribe, unsubscribe,
disconnect) preserves the mirrored-index invariant: after the operation
an observer is in the subscriber set of a subject iff the subject is in
the subscription set of the observer. -/
theorem registry_mirror_invariant (env : Env) (s : SocketState) (e : Event)
    (hm : Mirror s) (hop : registryOp e = true) : Mirror (step env s e).1 := by
  cases e with
  | connect sid => exact absurd hop (by simp [registryOp])
  | subscribe sid cid uid => exact mirror_subscribeStep hm sid cid uid
  | unsubscribe sid cid => exact mirror_unsubscribeStep hm sid cid
  | disconnect sid => exact mirror_disconnectStep hm sid
  | tick cid => exact absurd hop (by simp [registryOp])

/-- Witness for C9: a concrete authorized subscribe on the initial state
preserves the mirrored-index invariant. -/
theorem registry_mirror_invariant_witness :
    Mirror (step demoEnv initialState (Event.subscribe "o1" "c1" "u1")).1 :=
  registry_mirror_invariant demoEnv initialState (Event.subscribe "o1" "c1" "u1")
    (fun o c => by simp [edgeSubs, edgeSock, initialState]) rfl

/-- C10: when the alert-history query of the cooldown gate fails with a
store error, canSendAlert takes its catch branch and returns true for
every store, subject and type: the gate fails open and allows the alert. -/
theorem gate_fails_open (alerts : List Alert) (now : ℤ) (cid : String) (t : AlertType) :
    canSendAlert alerts true now cid t = true := rfl

end PashuSehat
